import Mathlib

/-!
Shallow embedding of the waterline value-normalization core:

* `normalizeVsAttribute` — the filter-value normalizer
  (src/lib/waterline/utils/query/private/normalize-vs-attribute.js)
* `normalizeValueToSet` — the write-value normalizer
  (src/unnamed/part_000, i.e. normalize-value-to-set.js)

External collaborators that live outside src/ (the rttc type
validator/coercer, the anchor rule validator, the primary-key coercers,
the ontology lookups, and the attribute-name check) are modelled from
the specification's contract for them, as marked on each definition.
-/

namespace Waterline

/-- A JavaScript-style runtime value, as handled by the normalizers:
primitives, `null`, `undefined`, arrays, plain dictionaries, and an
opaque non-JSON-serializable reference (standing for functions,
circular structures, and similar). -/
inductive Value where
  | undef : Value
  | null : Value
  | str (s : String) : Value
  | num (q : Rat) : Value
  | bool (b : Bool) : Value
  | arr (xs : List Value) : Value
  | obj (fs : List (String × Value)) : Value
  | opaqueRef : Value

/-- JS `_.isUndefined(value)`. -/
def isUndefV : Value → Bool
  | .undef => true
  | _ => false

/-- JS `_.isNull(value)`. -/
def isNullV : Value → Bool
  | .null => true
  | _ => false

/-- JS `value === ''`. -/
def isEmptyStr : Value → Bool
  | .str s => s == ""
  | _ => false

mutual

/-- Modelled from the spec: JSON-representability, used by the external
type validator for the `json` type tag (no `undefined`, no circular or
non-serializable references; arrays and dictionaries recursively). -/
def jsonOk : Value → Bool
  | .undef => false
  | .null => true
  | .str _ => true
  | .num _ => true
  | .bool _ => true
  | .arr xs => jsonOkList xs
  | .obj fs => jsonOkFields fs
  | .opaqueRef => false

/-- JSON-representability of each element of an array. -/
def jsonOkList : List Value → Bool
  | [] => true
  | x :: tl => jsonOk x && jsonOkList tl

/-- JSON-representability of each field value of a dictionary. -/
def jsonOkFields : List (String × Value) → Bool
  | [] => true
  | f :: tl => jsonOk f.2 && jsonOkFields tl

end

/-- Decimal digits of a natural number, accumulator style, with
structural fuel so the kernel can evaluate it. -/
def natDigitsGo (fuel n : Nat) (acc : List Char) : List Char :=
  match fuel, n with
  | 0, _ => acc
  | _ + 1, 0 => acc
  | fuel + 1, m + 1 => natDigitsGo fuel ((m + 1) / 10) (Char.ofNat (48 + (m + 1) % 10) :: acc)

/-- Decimal digit list of a natural number (never empty). -/
def natDigitsList (n : Nat) : List Char :=
  if n = 0 then ['0'] else natDigitsGo n n []

/-- Modelled from the spec: the decimal rendering the external type
coercer uses when converting a number to a string. -/
def numToString (q : Rat) : String :=
  ⟨(if q.num < 0 then ['-'] else []) ++ natDigitsList q.num.natAbs
    ++ (if q.den = 1 then [] else '/' :: natDigitsList q.den)⟩

/-- Numeric value of a list of decimal digit characters. -/
def digitsToNat (l : List Char) : Nat :=
  l.foldl (fun acc c => acc * 10 + (c.toNat - 48)) 0

/-- Parse an unsigned decimal numeral (optionally with a fractional
part) from a character list. -/
def parseUnsigned (l : List Char) : Option Rat :=
  let ip := l.takeWhile Char.isDigit
  let rest := l.dropWhile Char.isDigit
  if ip = [] then none
  else
    match rest with
    | [] => some (digitsToNat ip : Rat)
    | '.' :: fp =>
        if fp ≠ [] ∧ fp.all Char.isDigit then
          some ((digitsToNat ip : Rat) + (digitsToNat fp : Rat) / (10 : Rat) ^ fp.length)
        else none
    | _ => none

/-- Modelled from the spec: how the external loose type coercer reads a
numeric string (signed decimal numeral). -/
def parseNum (s : String) : Option Rat :=
  match s.data with
  | '-' :: rest => (parseUnsigned rest).map Neg.neg
  | l => parseUnsigned l

/-- Outcomes of the external rttc type validator: a type-mismatch
(`E_INVALID`) or usage with an unknown type tag. -/
inductive RttcErr where
  | invalid : RttcErr
  | notAType : RttcErr
deriving DecidableEq

/-- Modelled from the spec: the external Type Validator/Coercer
(`rttc.validate`): given a primitive type tag and a value, performs
loose validation — accepting values convertible to the tag, e.g.
numeric strings to numbers — and returns the canonical value, or fails
with a type-mismatch error.  `null` is valid only vs `json` and `ref`. -/
def rttcValidate (t : String) (v : Value) : Except RttcErr Value :=
  if t = "string" then
    match v with
    | .str s => .ok (.str s)
    | .num q => .ok (.str (numToString q))
    | .bool b => .ok (.str (if b then "true" else "false"))
    | _ => .error .invalid
  else if t = "number" then
    match v with
    | .num q => .ok (.num q)
    | .str s =>
        match parseNum s with
        | some q => .ok (.num q)
        | none => .error .invalid
    | _ => .error .invalid
  else if t = "boolean" then
    match v with
    | .bool b => .ok (.bool b)
    | .str s =>
        if s = "true" then .ok (.bool true)
        else if s = "false" then .ok (.bool false)
        else .error .invalid
    | _ => .error .invalid
  else if t = "json" then
    if jsonOk v then .ok v else .error .invalid
  else if t = "ref" then .ok v
  else .error .notAType

/-- Modelled from the spec: `rttc.coerce` base values — the canonical
zero value per primitive type tag, used only inside error messages. -/
def rttcCoerce (t : String) : Option Value :=
  if t = "string" then some (.str "")
  else if t = "number" then some (.num 0)
  else if t = "boolean" then some (.bool false)
  else if t = "json" then some .null
  else if t = "ref" then some .null
  else none

/-- Shallow rendering of a value inside an error message. -/
def renderValue : Value → String
  | .undef => "undefined"
  | .null => "null"
  | .str s => s
  | .num q => numToString q
  | .bool b => if b then "true" else "false"
  | .arr _ => "(array)"
  | .obj _ => "(dictionary)"
  | .opaqueRef => "(ref)"

/-- One declared validation rule of an attribute ruleset
(anchor-style named constraints). -/
inductive Rule where
  | isNotEmptyString : Rule
  | minLength (n : Nat) : Rule
  | maxLength (n : Nat) : Rule
  | isNumber : Rule
deriving DecidableEq

/-- The name of a rule, as reported in a rule violation. -/
def ruleName : Rule → String
  | .isNotEmptyString => "isNotEmptyString"
  | .minLength _ => "minLength"
  | .maxLength _ => "maxLength"
  | .isNumber => "isNumber"

/-- The message attached to a rule violation. -/
def ruleMessage : Rule → String
  | .isNotEmptyString => "Must not be the empty string."
  | .minLength _ => "Too few characters."
  | .maxLength _ => "Too many characters."
  | .isNumber => "Must be a number."

/-- Whether an (already type-valid) value satisfies one rule. -/
def checkRule : Rule → Value → Bool
  | .isNotEmptyString, .str s => !(s == "")
  | .isNotEmptyString, _ => false
  | .minLength n, .str s => n ≤ s.length
  | .minLength _, _ => false
  | .maxLength n, .str s => s.length ≤ n
  | .maxLength _, _ => false
  | .isNumber, .num _ => true
  | .isNumber, _ => false

/-- Modelled from the spec: the external Rule Validator (`anchor`):
given an already type-valid value and a declarative ruleset, returns
the list of violated rules as rule-name/message pairs (empty if none
are violated). -/
def anchor (v : Value) (ruleset : List Rule) : List (String × String) :=
  ruleset.filterMap fun r =>
    if checkRule r v then none else some (ruleName r, ruleMessage r)

/-- A compiled attribute definition: a declared primitive `type`, or a
singular association (`model`), or a plural association (`collection`),
plus the flags and the optional validation ruleset the write
normalizer consults. -/
structure AttrDef where
  type : Option String := none
  model : Option String := none
  collection : Option String := none
  required : Bool := false
  autoCreatedAt : Bool := false
  autoUpdatedAt : Bool := false
  validations : Option (List Rule) := none
  defaultsTo : Option Value := none

/-- JS truthiness of an optional string property (absent and the empty
string are both falsy). -/
def truthyStr : Option String → Bool
  | some s => !(s == "")
  | none => false

/-- A compiled Waterline model: the `hasSchema` flag (`none` stands for
a model whose flag is neither `true` nor `false`, a consistency
violation), the primary-key attribute name, and the attribute map. -/
structure WLModel where
  hasSchema : Option Bool
  primaryKey : String
  attributes : List (String × AttrDef)

/-- The ORM instance: registered models by identity. -/
def Orm := List (String × WLModel)

/-- Modelled from the spec: the ontology `getModel` lookup
(`getModel(identity) -> ModelSchema | NotRegistered`). -/
def getModel (identity : String) (orm : Orm) : Option WLModel :=
  List.lookup identity orm

/-- Attribute lookup in a model's attribute map (the ontology
`getAttribute`, with its not-registered outcome as `none`). -/
def lookupAttr (M : WLModel) (name : String) : Option AttrDef :=
  List.lookup name M.attributes

/-- Modelled from the spec: the `isValidAttributeName` check used for
undeclared attributes of a loose-schema model — a syntactically valid
attribute-name token (identifier-shaped, nonempty). -/
def isValidAttributeName (s : String) : Bool :=
  match s.data with
  | [] => false
  | c :: rest =>
      (c.isAlpha || c == '_' || c == '$') &&
      rest.all (fun d => d.isAlphanum || d == '_' || d == '$')

/-- Outcomes of the external primary-key coercer: an invalid key value
(`E_INVALID_PK_VALUE`) or a usage error (bad type-tag argument). -/
inductive PkErr where
  | invalidPkValue : PkErr
  | usage : PkErr
deriving DecidableEq

/-- Modelled from the spec: the external Primary-Key Coercer
(`normalizePkValue`): normalizes a raw value as a primary-key value of
the given declared type — stricter than the general type coercion,
e.g. rejecting fractional numbers for `number` keys. -/
def normalizePkValue (v : Value) (t : Option String) : Except PkErr Value :=
  match t with
  | some "number" =>
      (match v with
       | .num q => if q.den = 1 then .ok (.num q) else .error .invalidPkValue
       | .str s =>
           (match parseNum s with
            | some q => if q.den = 1 then .ok (.num q) else .error .invalidPkValue
            | none => .error .invalidPkValue)
       | _ => .error .invalidPkValue)
  | some "string" =>
      (match v with
       | .str s => if s = "" then .error .invalidPkValue else .ok (.str s)
       | _ => .error .invalidPkValue)
  | _ => .error .usage

/-- Primary-key coercion of each element of a list, failing on the
first invalid element. -/
def normalizePkValueEach (xs : List Value) (t : Option String) : Except PkErr (List Value) :=
  match xs with
  | [] => .ok []
  | x :: tl =>
      match normalizePkValue x t with
      | .error e => .error e
      | .ok y =>
          match normalizePkValueEach tl t with
          | .error e => .error e
          | .ok ys => .ok (y :: ys)

/-- Modelled from the spec: the external `normalizePkValues` — requires
an array and coerces each element as a primary-key value, failing on
the first invalid element (a non-array is an invalid key value). -/
def normalizePkValues (v : Value) (t : Option String) : Except PkErr Value :=
  match v with
  | .arr xs => (normalizePkValueEach xs t).map Value.arr
  | _ => .error .invalidPkValue

/-- Failure kinds of the filter-value normalizer: `E_VALUE_NOT_USABLE`,
or a consistency violation (a failed assertion or an error outside the
public taxonomy, rethrown raw). -/
inductive FilterErr where
  | valueNotUsable : FilterErr
  | consistency : FilterErr
deriving DecidableEq

/-- The filter-value normalizer `normalizeVsAttribute` from
src/lib/waterline/utils/query/private/normalize-vs-attribute.js:
asserts the value is not `undefined` and (when the attribute exists)
that it is not a plural association, accepts `null` unconditionally,
validates an undeclared attribute's value as `json`, a singular
association's value against the target model's primary-key type, and a
scalar's value against its declared type — each type mismatch becoming
`E_VALUE_NOT_USABLE`. -/
def normalizeVsAttribute (value : Value) (attrName : String) (modelIdentity : String)
    (orm : Orm) : Except FilterErr Value :=
  if isUndefV value then .error .consistency
  else
    match getModel modelIdentity orm with
    | none => .error .consistency
    | some WLM =>
      match lookupAttr WLM attrName with
      | some attrDef =>
          if truthyStr attrDef.collection then .error .consistency
          else if isNullV value then .ok value
          else if truthyStr attrDef.model then
            match getModel (attrDef.model.getD "") orm with
            | none => .error .consistency
            | some TM =>
              match lookupAttr TM TM.primaryKey with
              | none => .error .consistency
              | some pkAttr =>
                match pkAttr.type with
                | none => .error .consistency
                | some associatedPkType =>
                  match rttcValidate associatedPkType value with
                  | .ok w => .ok w
                  | .error .invalid => .error .valueNotUsable
                  | .error .notAType => .error .consistency
          else
            match attrDef.type with
            | none => .error .consistency
            | some t =>
              if t = "" then .error .consistency
              else
                match rttcValidate t value with
                | .ok w => .ok w
                | .error .invalid => .error .valueNotUsable
                | .error .notAType => .error .consistency
      | none =>
          if isNullV value then .ok value
          else
            match rttcValidate "json" value with
            | .ok w => .ok w
            | .error .invalid => .error .valueNotUsable
            | .error .notAType => .error .consistency

/-- Payload of an `E_INVALID` error from the write normalizer: either
the special null-steering message (naming the attribute and the base
value of its type) or the generic rttc type mismatch. -/
inductive InvMsg where
  | nullSteering (attrName : String) (basePhrase : String) : InvMsg
  | typeMismatch : InvMsg
deriving DecidableEq

/-- Failure kinds of the write-value normalizer: `E_SHOULD_BE_IGNORED`,
`E_HIGHLY_IRREGULAR`, `E_INVALID` (with its message payload),
`E_VIOLATES_RULES` (with the complete violation list), or a
consistency violation outside the public taxonomy. -/
inductive WriteErr where
  | shouldBeIgnored : WriteErr
  | highlyIrregular : WriteErr
  | invalid (m : InvMsg) : WriteErr
  | violatesRules (ruleViolations : List (String × String)) : WriteErr
  | consistency : WriteErr
deriving DecidableEq

/-- The base-value phrase embedded in the null-steering error message
(src/unnamed/part_000 lines 403-409): special-cased wording for
`string` and `number`, otherwise the rendered `rttc.coerce` base value
(which is a raw error for an unknown tag). -/
def getBaseValuePhrase (t : String) : Option String :=
  if t = "string" then some "(empty string)"
  else if t = "number" then some "0 (zero)"
  else (rttcCoerce t).map renderValue

/-- The plain-scalar branch of `normalizeValueToSet`
(src/unnamed/part_000 lines 359-464): the auto-timestamp empty-string
guard, the special null-for-incompatible-optional-attribute error, the
loose rttc validation, and the ruleset check (skipped for `null`),
whose violations are thrown in full as `E_VIOLATES_RULES`. -/
def normalizeScalarValue (value : Value) (attrName : String) (ad : AttrDef)
    (t : String) : Except WriteErr Value :=
  if isEmptyStr value && (ad.autoCreatedAt || ad.autoUpdatedAt) then
    .error .highlyIrregular
  else if isNullV value && !(t == "json") && !(t == "ref") && !ad.required then
    match getBaseValuePhrase t with
    | some phrase => .error (.invalid (.nullSteering attrName phrase))
    | none => .error .consistency
  else
    match rttcValidate t value with
    | .error .invalid => .error (.invalid .typeMismatch)
    | .error .notAType => .error .consistency
    | .ok w =>
      match ad.validations with
      | none => .ok w
      | some ruleset =>
        if isNullV w then .ok w
        else
          match anchor w ruleset with
          | [] => .ok w
          | v :: tl => .error (.violatesRules (v :: tl))

/-- The plural-association branch of `normalizeValueToSet`
(src/unnamed/part_000 lines 271-298): collection assignment must be
explicitly allowed, and the value must be an array of valid
primary-key values of the associated model. -/
def normalizeCollectionValue (value : Value) (target : String) (orm : Orm)
    (allowCollectionAttrs : Bool) : Except WriteErr Value :=
  if !allowCollectionAttrs then .error .highlyIrregular
  else
    match getModel target orm with
    | none => .error .consistency
    | some TM =>
      match lookupAttr TM TM.primaryKey with
      | none => .error .consistency
      | some pkAttr =>
        match normalizePkValues value pkAttr.type with
        | .ok w => .ok w
        | .error .invalidPkValue => .error .highlyIrregular
        | .error .usage => .error .consistency

/-- The singular-association branch of `normalizeValueToSet`
(src/unnamed/part_000 lines 303-351): `null` is allowed unless the
attribute is `required`, and any other value must coerce as a
primary-key value of the associated model. -/
def normalizeSingularValue (value : Value) (ad : AttrDef) (target : String)
    (orm : Orm) : Except WriteErr Value :=
  if isNullV value then
    if ad.required then .error .highlyIrregular else .ok value
  else
    match getModel target orm with
    | none => .error .consistency
    | some TM =>
      match lookupAttr TM TM.primaryKey with
      | none => .error .consistency
      | some pkAttr =>
        match normalizePkValue value pkAttr.type with
        | .ok w => .ok w
        | .error .invalidPkValue => .error .highlyIrregular
        | .error .usage => .error .consistency

/-- The five-way shape dispatch of `normalizeValueToSet` after the
schema-mode gate (src/unnamed/part_000 lines 220-464): ignore
`undefined`, validate an undeclared attribute's value as `json`,
coerce the primary key through the primary-key coercer, and hand
plural associations, singular associations, and plain scalars to
their branches. -/
def nvtsDispatch (value : Value) (attrName : String) (WLM : WLModel)
    (orm : Orm) (allowCollectionAttrs : Bool) : Except WriteErr Value :=
  if isUndefV value then .error .shouldBeIgnored
  else
    match lookupAttr WLM attrName with
    | none =>
        match rttcValidate "json" value with
        | .ok w => .ok w
        | .error .invalid => .error (.invalid .typeMismatch)
        | .error .notAType => .error .consistency
    | some ad =>
      if WLM.primaryKey = attrName then
        match normalizePkValue value ad.type with
        | .ok w => .ok w
        | .error .invalidPkValue => .error .highlyIrregular
        | .error .usage => .error .consistency
      else if truthyStr ad.collection then
        normalizeCollectionValue value (ad.collection.getD "") orm allowCollectionAttrs
      else if truthyStr ad.model then
        normalizeSingularValue value ad (ad.model.getD "") orm
      else
        match ad.type with
        | none => .error .consistency
        | some t =>
          if t = "" then .error .consistency
          else normalizeScalarValue value attrName ad t

/-- The write-value normalizer `normalizeValueToSet` from
src/unnamed/part_000: asserts a nonempty attribute name, resolves the
model, applies the schema-mode gate (strict schema ignores unknown
attributes, loose schema requires a valid attribute name, an unset
`hasSchema` flag is a consistency violation), then dispatches on the
attribute shape. -/
def normalizeValueToSet (value : Value) (supposedAttrName : String)
    (modelIdentity : String) (orm : Orm) (allowCollectionAttrs : Bool) :
    Except WriteErr Value :=
  if supposedAttrName = "" then .error .consistency
  else
    match getModel modelIdentity orm with
    | none => .error .consistency
    | some WLM =>
      match WLM.hasSchema with
      | some true =>
          if (lookupAttr WLM supposedAttrName).isNone then .error .shouldBeIgnored
          else nvtsDispatch value supposedAttrName WLM orm allowCollectionAttrs
      | some false =>
          if isValidAttributeName supposedAttrName then
            nvtsDispatch value supposedAttrName WLM orm allowCollectionAttrs
          else .error .highlyIrregular
      | none => .error .consistency

/-- Ruleset of the demo `bio` attribute: two independent constraints. -/
def bioRuleset : List Rule := [.minLength 5, .isNumber]

/-- Demo strict-schema model (`schema: true`): a number primary key,
scalar attributes, a plural association, and two singular
associations. -/
def userModel : WLModel :=
  { hasSchema := some true
    primaryKey := "id"
    attributes :=
      [ ("id", { type := some "number" })
      , ("name", { type := some "string", required := true })
      , ("nickname", { type := some "string" })
      , ("luckyNumber", { type := some "number" })
      , ("bio", { type := some "string", validations := some bioRuleset })
      , ("prefs", { type := some "json", validations := some [.isNumber] })
      , ("createdAt", { type := some "number", autoCreatedAt := true })
      , ("pets", { collection := some "pet" })
      , ("bestFriend", { model := some "user" })
      , ("boss", { model := some "user", required := true }) ] }

/-- Demo loose-schema model (`schema: false`) with a number primary
key. -/
def petModel : WLModel :=
  { hasSchema := some false
    primaryKey := "id"
    attributes := [ ("id", { type := some "number" }) ] }

/-- The demo ORM holding both demo models. -/
def demoOrm : Orm := [("user", userModel), ("pet", petModel)]

example : normalizeValueToSet (.bool true) "mystery" "user" demoOrm false
    = .error .shouldBeIgnored := by rfl
example : normalizeValueToSet .null "name" "user" demoOrm false
    = .error (.invalid .typeMismatch) := by rfl
example : normalizeValueToSet .null "nickname" "user" demoOrm false
    = .error (.invalid (.nullSteering "nickname" "(empty string)")) := by rfl
example : normalizeValueToSet .null "bestFriend" "user" demoOrm false = .ok .null := by rfl
example : normalizeValueToSet .null "boss" "user" demoOrm false
    = .error .highlyIrregular := by rfl
example : normalizeVsAttribute .null "pets" "user" demoOrm = .error .consistency := by rfl
example : normalizeVsAttribute .null "bio" "user" demoOrm = .ok .null := by rfl
example : normalizeValueToSet (.arr [.str "1", .str "2"]) "pets" "user" demoOrm true
    = .ok (.arr [.num 1, .num 2]) := by rfl
example : normalizeValueToSet (.arr [.num 1, .bool true]) "pets" "user" demoOrm true
    = .error .highlyIrregular := by rfl
example : normalizeValueToSet (.str "hi") "bio" "user" demoOrm false
    = .error (.violatesRules
        [("minLength", "Too few characters."), ("isNumber", "Must be a number.")]) := by rfl
example : normalizeValueToSet (.obj [("a", .num 1), ("b", .arr [.num 1, .num 2])]) "extra" "pet" demoOrm false
    = .ok (.obj [("a", .num 1), ("b", .arr [.num 1, .num 2])]) := by rfl
example : normalizeValueToSet (.arr [.opaqueRef]) "extra" "pet" demoOrm false
    = .error (.invalid .typeMismatch) := by rfl
example : normalizeValueToSet (.str "123") "id" "user" demoOrm false
    = .ok (.num 123) := by rfl
example : normalizeVsAttribute (.num (33/10)) "bestFriend" "user" demoOrm
    = .ok (.num (33/10)) := by rfl

/-- A syntactically valid attribute name is nonempty. -/
theorem validName_ne_empty (s : String) (h : isValidAttributeName s = true) :
    s ≠ "" := by
  intro he
  subst he
  exact absurd h (by decide)

/-- Once the model resolves and the schema-mode gate passes for an
existing attribute, the write normalizer is its shape dispatch. -/
theorem nvts_gate_reduce (orm : Orm) (mid attrName : String) (M : WLModel)
    (ad : AttrDef) (b : Bool) (v : Value) (allow : Bool)
    (hM : getModel mid orm = some M)
    (hs : M.hasSchema = some b)
    (hvn : isValidAttributeName attrName = true)
    (hA : lookupAttr M attrName = some ad) :
    normalizeValueToSet v attrName mid orm allow
      = nvtsDispatch v attrName M orm allow := by
  have hne : attrName ≠ "" := validName_ne_empty attrName hvn
  unfold normalizeValueToSet
  rw [if_neg hne, hM]
  cases b with
  | true => simp only [hs, hA, Option.isNone_some, Bool.false_eq_true, if_false]
  | false => simp only [hs, hvn, if_true]

/-- Shape dispatch reduces to the plain-scalar branch for a non-primary
scalar attribute. -/
theorem nvtsDispatch_scalar_reduce (v : Value) (attrName : String) (M : WLModel)
    (orm : Orm) (allow : Bool) (ad : AttrDef) (t : String)
    (hA : lookupAttr M attrName = some ad)
    (hpk : M.primaryKey ≠ attrName)
    (hcol : truthyStr ad.collection = false)
    (hmod : truthyStr ad.model = false)
    (ht : ad.type = some t) (hte : t ≠ "")
    (hv : isUndefV v = false) :
    nvtsDispatch v attrName M orm allow = normalizeScalarValue v attrName ad t := by
  unfold nvtsDispatch
  rw [hv]
  simp only [Bool.false_eq_true, if_false, hA, if_neg hpk, hcol, hmod, ht, if_neg hte]

/-- Shape dispatch reduces to the singular-association branch. -/
theorem nvtsDispatch_singular_reduce (v : Value) (attrName : String) (M : WLModel)
    (orm : Orm) (allow : Bool) (ad : AttrDef) (target : String)
    (hA : lookupAttr M attrName = some ad)
    (hpk : M.primaryKey ≠ attrName)
    (hcol : truthyStr ad.collection = false)
    (hmod : ad.model = some target) (htg : target ≠ "")
    (hv : isUndefV v = false) :
    nvtsDispatch v attrName M orm allow = normalizeSingularValue v ad target orm := by
  have htt : truthyStr (some target) = true := by
    simp only [truthyStr, Bool.not_eq_true', beq_eq_false_iff_ne, ne_eq]
    exact htg
  unfold nvtsDispatch
  rw [hv]
  simp only [Bool.false_eq_true, if_false, hA, if_neg hpk, hcol, hmod, htt, if_true,
    Option.getD_some]

/-- Shape dispatch reduces to the plural-association branch. -/
theorem nvtsDispatch_collection_reduce (v : Value) (attrName : String) (M : WLModel)
    (orm : Orm) (allow : Bool) (ad : AttrDef) (target : String)
    (hA : lookupAttr M attrName = some ad)
    (hpk : M.primaryKey ≠ attrName)
    (hcol : ad.collection = some target) (htg : target ≠ "")
    (hv : isUndefV v = false) :
    nvtsDispatch v attrName M orm allow
      = normalizeCollectionValue v target orm allow := by
  have htt : truthyStr (some target) = true := by
    simp only [truthyStr, Bool.not_eq_true', beq_eq_false_iff_ne, ne_eq]
    exact htg
  unfold nvtsDispatch
  rw [hv]
  simp only [Bool.false_eq_true, if_false, hA, if_neg hpk, hcol, htt, if_true,
    Option.getD_some]

/-- C1 (counterexample): the filter-value normalizer does not succeed
with `null` for a plural association attribute — the plural-association
assertion fires before the null check, so the call fails loudly with a
consistency violation instead of returning `null`. -/
theorem filterNull_plural_counterexample :
    normalizeVsAttribute .null "pets" "user" demoOrm = .error .consistency := by
  rfl

/-- C1 (amended): for every attribute shape other than a plural
association — scalar, singular association, or undeclared attribute —
the filter-value normalizer applied to `null` on a registered model
succeeds and returns `null`. -/
theorem filterNull_nonPlural_ok (orm : Orm) (mid attrName : String) (M : WLModel)
    (hM : getModel mid orm = some M)
    (hnp : ∀ ad, lookupAttr M attrName = some ad → truthyStr ad.collection = false) :
    normalizeVsAttribute .null attrName mid orm = .ok .null := by
  unfold normalizeVsAttribute
  rw [show isUndefV .null = false from rfl, hM]
  cases hA : lookupAttr M attrName with
  | none => simp only [Bool.false_eq_true, if_false, isNullV, if_true, hA]
  | some ad =>
      have hc := hnp ad hA
      simp only [Bool.false_eq_true, if_false, isNullV, if_true, hA, hc]

/-- Instance of the amended C1 at a concrete singular association,
discharging each hypothesis. -/
theorem filterNull_nonPlural_ok_witness :
    getModel "user" demoOrm = some userModel ∧
    normalizeVsAttribute .null "bestFriend" "user" demoOrm = .ok .null :=
  ⟨rfl, filterNull_nonPlural_ok demoOrm "user" "bestFriend" userModel rfl
    (fun ad h => by
      have hbf : lookupAttr userModel "bestFriend"
          = some { model := some "user" } := rfl
      rw [hbf] at h
      cases h
      rfl)⟩

/-- C2 (counterexample): writing `null` to a plain scalar attribute
whose type is `string` but which is marked `required: true` fails
`E_INVALID` with the generic rttc type-mismatch error, not the
specially-worded base-value steering message — the steering branch
requires the attribute to be optional. -/
theorem writeNull_requiredScalar_counterexample :
    normalizeValueToSet .null "name" "user" demoOrm false
      = .error (.invalid .typeMismatch) := by
  rfl

/-- C2 (amended): for every write of `null` to a plain scalar attribute
whose declared type is neither `json` nor `ref` and which is not marked
`required`, the write normalizer fails `E_INVALID` carrying the
distinct null-steering message that names the attribute and the
declared type's canonical base value. -/
theorem writeNull_optionalScalar_nullSteering (orm : Orm) (mid attrName : String)
    (M : WLModel) (ad : AttrDef) (t : String) (b : Bool) (allow : Bool)
    (hM : getModel mid orm = some M)
    (hs : M.hasSchema = some b)
    (hvn : isValidAttributeName attrName = true)
    (hA : lookupAttr M attrName = some ad)
    (hpk : M.primaryKey ≠ attrName)
    (hcol : truthyStr ad.collection = false)
    (hmod : truthyStr ad.model = false)
    (ht : ad.type = some t)
    (htv : t = "string" ∨ t = "number" ∨ t = "boolean")
    (hreq : ad.required = false) :
    ∃ phrase, getBaseValuePhrase t = some phrase ∧
      normalizeValueToSet .null attrName mid orm allow
        = .error (.invalid (.nullSteering attrName phrase)) := by
  have hte : t ≠ "" := by rcases htv with rfl | rfl | rfl <;> decide
  rw [nvts_gate_reduce orm mid attrName M ad b .null allow hM hs hvn hA,
    nvtsDispatch_scalar_reduce .null attrName M orm allow ad t hA hpk hcol hmod ht hte rfl]
  unfold normalizeScalarValue
  rcases htv with rfl | rfl | rfl
  · exact ⟨"(empty string)", rfl, by rw [hreq]; rfl⟩
  · exact ⟨"0 (zero)", rfl, by rw [hreq]; rfl⟩
  · exact ⟨"false", rfl, by rw [hreq]; rfl⟩

/-- Instance of the amended C2 at a concrete optional string attribute,
discharging each hypothesis. -/
theorem writeNull_optionalScalar_nullSteering_witness :
    ∃ phrase, getBaseValuePhrase "string" = some phrase ∧
      normalizeValueToSet .null "nickname" "user" demoOrm false
        = .error (.invalid (.nullSteering "nickname" phrase)) :=
  writeNull_optionalScalar_nullSteering demoOrm "user" "nickname" userModel
    { type := some "string" } "string" true false rfl rfl (by decide) rfl
    (by decide) rfl rfl rfl (Or.inl rfl) rfl

/-- C3: for a model with `hasSchema = true` and an attribute name
absent from its attribute map, the write normalizer always fails
`E_SHOULD_BE_IGNORED`, regardless of the value (even `undefined`). -/
theorem strictSchema_unknownAttr_ignored (orm : Orm) (mid attrName : String)
    (M : WLModel)
    (hne : attrName ≠ "")
    (hM : getModel mid orm = some M)
    (hs : M.hasSchema = some true)
    (hA : lookupAttr M attrName = none) :
    ∀ (v : Value) (allow : Bool),
      normalizeValueToSet v attrName mid orm allow = .error .shouldBeIgnored := by
  intro v allow
  unfold normalizeValueToSet
  rw [if_neg hne, hM]
  simp only [hs, hA, Option.isNone_none, if_true]

/-- Instance of C3 at a concrete unknown attribute of the strict-schema
demo model, discharging each hypothesis. -/
theorem strictSchema_unknownAttr_ignored_witness :
    getModel "user" demoOrm = some userModel ∧
    userModel.hasSchema = some true ∧
    lookupAttr userModel "mystery" = none ∧
    normalizeValueToSet (.bool true) "mystery" "user" demoOrm false
      = .error .shouldBeIgnored :=
  ⟨rfl, rfl, rfl,
    strictSchema_unknownAttr_ignored demoOrm "user" "mystery" userModel
      (by decide) rfl rfl rfl (.bool true) false⟩

/-- C4: for a model with `hasSchema = false` and an attribute name
absent from its schema, the write normalizer requires the name to be a
syntactically valid attribute-name token (failing `E_HIGHLY_IRREGULAR`
otherwise), and then a supplied (non-`undefined`) value succeeds
exactly when it is JSON-representable, failing `E_INVALID` otherwise. -/
theorem looseSchema_unknownAttr_passthrough (orm : Orm) (mid attrName : String)
    (M : WLModel)
    (hne : attrName ≠ "")
    (hM : getModel mid orm = some M)
    (hs : M.hasSchema = some false)
    (hA : lookupAttr M attrName = none) :
    (isValidAttributeName attrName = false →
      ∀ (v : Value) (allow : Bool),
        normalizeValueToSet v attrName mid orm allow = .error .highlyIrregular) ∧
    (isValidAttributeName attrName = true →
      ∀ (v : Value) (allow : Bool), isUndefV v = false →
        (jsonOk v = true →
          normalizeValueToSet v attrName mid orm allow = .ok v) ∧
        (jsonOk v = false →
          normalizeValueToSet v attrName mid orm allow
            = .error (.invalid .typeMismatch))) := by
  constructor
  · intro hbad v allow
    unfold normalizeValueToSet
    rw [if_neg hne, hM]
    simp only [hs, hbad, Bool.false_eq_true, if_false]
  · intro hvn v allow hv
    unfold normalizeValueToSet
    rw [if_neg hne, hM]
    simp only [hs, hvn, if_true]
    unfold nvtsDispatch
    rw [hv]
    simp only [Bool.false_eq_true, if_false, hA]
    constructor
    · intro hj
      simp [rttcValidate, hj]
    · intro hj
      simp [rttcValidate, hj]

/-- Instance of C4 at a concrete undeclared attribute of the
loose-schema demo model with a JSON-representable dictionary value,
discharging each hypothesis. -/
theorem looseSchema_unknownAttr_passthrough_witness :
    normalizeValueToSet (.obj [("a", .num 1), ("b", .arr [.num 1, .num 2])])
        "extra" "pet" demoOrm false
      = .ok (.obj [("a", .num 1), ("b", .arr [.num 1, .num 2])]) :=
  ((looseSchema_unknownAttr_passthrough demoOrm "pet" "extra" petModel
      (by decide) rfl rfl rfl).2 rfl
    (.obj [("a", .num 1), ("b", .arr [.num 1, .num 2])]) false rfl).1 rfl

/-- For a `string` or `number` primary-key type, the primary-key
coercer never fails with a usage error. -/
theorem normalizePkValue_no_usage (x : Value) (pt : String)
    (hpt : pt = "string" ∨ pt = "number") :
    normalizePkValue x (some pt) ≠ .error .usage := by
  intro h
  rcases hpt with rfl | rfl <;> cases x <;>
    simp only [normalizePkValue] at h <;>
    (try split at h) <;> (try split at h) <;> simp_all

/-- When no element can produce a usage error and some element is an
invalid primary-key value, elementwise primary-key coercion fails with
an invalid-key error. -/
theorem normalizePkValueEach_err (t : Option String)
    (hu : ∀ x, normalizePkValue x t ≠ .error .usage) :
    ∀ xs : List Value,
      (∃ x ∈ xs, normalizePkValue x t = .error .invalidPkValue) →
      normalizePkValueEach xs t = .error .invalidPkValue := by
  intro xs
  induction xs with
  | nil =>
      rintro ⟨x, hx, -⟩
      cases hx
  | cons hd tl ih =>
      rintro ⟨x, hx, hfail⟩
      unfold normalizePkValueEach
      cases hh : normalizePkValue hd t with
      | error e =>
          cases e with
          | invalidPkValue => rfl
          | usage => exact absurd hh (hu hd)
      | ok y =>
          rcases List.mem_cons.mp hx with rfl | hxtl
          · rw [hh] at hfail
            cases hfail
          · rw [ih ⟨x, hxtl, hfail⟩]

/-- C5: for a plural association attribute, any (supplied) value fails
`E_HIGHLY_IRREGULAR` when collection assignment is not allowed; with
collection assignment allowed, an array of valid primary-key values of
the target model succeeds with the coerced array, and an array
containing an invalid element fails `E_HIGHLY_IRREGULAR`. -/
theorem collectionGate (orm : Orm) (mid attrName : String) (M TM : WLModel)
    (ad pkAttr : AttrDef) (target pt : String) (b : Bool)
    (hM : getModel mid orm = some M)
    (hs : M.hasSchema = some b)
    (hvn : isValidAttributeName attrName = true)
    (hA : lookupAttr M attrName = some ad)
    (hpk : M.primaryKey ≠ attrName)
    (hcol : ad.collection = some target) (htg : target ≠ "")
    (hTM : getModel target orm = some TM)
    (hpkA : lookupAttr TM TM.primaryKey = some pkAttr)
    (hpt : pkAttr.type = some pt)
    (hptv : pt = "string" ∨ pt = "number") :
    (∀ v : Value, isUndefV v = false →
      normalizeValueToSet v attrName mid orm false = .error .highlyIrregular) ∧
    (∀ (xs ys : List Value), normalizePkValueEach xs (some pt) = .ok ys →
      normalizeValueToSet (.arr xs) attrName mid orm true = .ok (.arr ys)) ∧
    (∀ xs : List Value,
      (∃ x ∈ xs, normalizePkValue x (some pt) = .error .invalidPkValue) →
      normalizeValueToSet (.arr xs) attrName mid orm true
        = .error .highlyIrregular) := by
  refine ⟨?_, ?_, ?_⟩
  · intro v hv
    rw [nvts_gate_reduce orm mid attrName M ad b v false hM hs hvn hA,
      nvtsDispatch_collection_reduce v attrName M orm false ad target hA hpk hcol htg hv]
    rfl
  · intro xs ys hok
    rw [nvts_gate_reduce orm mid attrName M ad b (.arr xs) true hM hs hvn hA,
      nvtsDispatch_collection_reduce (.arr xs) attrName M orm true ad target hA hpk
        hcol htg rfl]
    unfold normalizeCollectionValue
    rw [hTM]
    simp only [hpkA, hpt, Bool.not_true, Bool.false_eq_true, if_false]
    simp only [normalizePkValues, hok]
    rfl
  · intro xs hbad
    rw [nvts_gate_reduce orm mid attrName M ad b (.arr xs) true hM hs hvn hA,
      nvtsDispatch_collection_reduce (.arr xs) attrName M orm true ad target hA hpk
        hcol htg rfl]
    unfold normalizeCollectionValue
    rw [hTM]
    simp only [hpkA, hpt, Bool.not_true, Bool.false_eq_true, if_false]
    have herr := normalizePkValueEach_err (some pt)
      (fun x => normalizePkValue_no_usage x pt hptv) xs hbad
    simp only [normalizePkValues, herr]
    rfl

/-- Instance of C5 at the demo plural association with an array of
numeric-string keys, discharging each hypothesis. -/
theorem collectionGate_witness :
    normalizeValueToSet (.arr [.str "1", .str "2"]) "pets" "user" demoOrm true
      = .ok (.arr [.num 1, .num 2]) :=
  (collectionGate demoOrm "user" "pets" userModel petModel { collection := some "pet" }
      { type := some "number" } "pet" "number" true rfl rfl (by decide) rfl
      (by decide) rfl (by decide) rfl rfl rfl (Or.inr rfl)).2.1
    [.str "1", .str "2"] [.num 1, .num 2] rfl

/-- C6: for a singular association attribute, writing `null` fails
`E_HIGHLY_IRREGULAR` when the attribute is `required`, and succeeds
returning `null` when it is not. -/
theorem requiredAssociationNullRule (orm : Orm) (mid attrName : String)
    (M : WLModel) (ad : AttrDef) (target : String) (b : Bool) (allow : Bool)
    (hM : getModel mid orm = some M)
    (hs : M.hasSchema = some b)
    (hvn : isValidAttributeName attrName = true)
    (hA : lookupAttr M attrName = some ad)
    (hpk : M.primaryKey ≠ attrName)
    (hcol : truthyStr ad.collection = false)
    (hmod : ad.model = some target) (htg : target ≠ "") :
    (ad.required = true →
      normalizeValueToSet .null attrName mid orm allow = .error .highlyIrregular) ∧
    (ad.required = false →
      normalizeValueToSet .null attrName mid orm allow = .ok .null) := by
  rw [nvts_gate_reduce orm mid attrName M ad b .null allow hM hs hvn hA,
    nvtsDispatch_singular_reduce .null attrName M orm allow ad target hA hpk hcol
      hmod htg rfl]
  unfold normalizeSingularValue
  constructor
  · intro hreq
    simp only [isNullV, if_true, hreq]
  · intro hreq
    simp only [isNullV, if_true, hreq, Bool.false_eq_true, if_false]

/-- Instance of C6 at the concrete required singular association of the
demo model, discharging each hypothesis. -/
theorem requiredAssociationNullRule_witness :
    normalizeValueToSet .null "boss" "user" demoOrm false
      = .error .highlyIrregular :=
  (requiredAssociationNullRule demoOrm "user" "boss" userModel
      { model := some "user", required := true } "user" true false rfl rfl
      (by decide) rfl (by decide) rfl rfl (by decide)).1 rfl

/-- The digit accumulator never shortens its accumulator. -/
theorem natDigitsGo_length (fuel : Nat) :
    ∀ (n : Nat) (acc : List Char), acc.length ≤ (natDigitsGo fuel n acc).length := by
  induction fuel with
  | zero => intro n acc; rfl
  | succ fuel ih =>
      intro n acc
      cases n with
      | zero => rfl
      | succ m =>
          calc acc.length ≤ (Char.ofNat (48 + (m + 1) % 10) :: acc).length :=
                Nat.le_succ _
            _ ≤ _ := ih _ _

/-- The digit list of a natural number is nonempty. -/
theorem natDigitsList_ne_nil (n : Nat) : natDigitsList n ≠ [] := by
  unfold natDigitsList
  split
  · simp
  · rename_i h
    intro hc
    cases n with
    | zero => exact h rfl
    | succ m =>
        have h2 : 1 ≤ (natDigitsGo (m + 1) (m + 1) []).length :=
          natDigitsGo_length m ((m + 1) / 10) [Char.ofNat (48 + (m + 1) % 10)]
        rw [hc] at h2
        simp at h2

/-- The decimal rendering of a number is never the empty string. -/
theorem numToString_ne_empty (q : Rat) : numToString q ≠ "" := by
  unfold numToString
  intro h
  have hd := congrArg String.data h
  simp only [List.append_eq_nil] at hd
  exact natDigitsList_ne_nil q.num.natAbs hd.1.2

/-- The rttc string rendering of a number is not the empty string, in
`isEmptyStr` form. -/
theorem isEmptyStr_numToString (q : Rat) :
    isEmptyStr (.str (numToString q)) = false := by
  show (numToString q == "") = false
  cases hb : numToString q == ""
  · rfl
  · exact absurd (eq_of_beq hb) (numToString_ne_empty q)

/-- Loose rttc coercion is idempotent: re-validating an already
coerced value returns it unchanged. -/
theorem rttcValidate_idem (t : String) (v w : Value)
    (h : rttcValidate t v = .ok w) : rttcValidate t w = .ok w := by
  unfold rttcValidate at h ⊢
  by_cases h1 : t = "string"
  · rw [if_pos h1] at h ⊢
    cases v <;>
      first
        | exact Except.noConfusion h
        | (injection h with h; subst h; rfl)
  · rw [if_neg h1] at h ⊢
    by_cases h2 : t = "number"
    · rw [if_pos h2] at h ⊢
      cases v <;>
        first
          | exact Except.noConfusion h
          | (injection h with h; subst h; rfl)
          | (rename_i s
             replace h : (match parseNum s with
                 | some q => Except.ok (Value.num q)
                 | none => Except.error RttcErr.invalid) = Except.ok w := h
             cases hp : parseNum s <;> rw [hp] at h <;>
               first
                 | exact Except.noConfusion h
                 | (injection h with h; subst h; rfl))
    · rw [if_neg h2] at h ⊢
      by_cases h3 : t = "boolean"
      · rw [if_pos h3] at h ⊢
        cases v <;>
          first
            | exact Except.noConfusion h
            | (injection h with h; subst h; rfl)
            | (rename_i s
               replace h : (if s = "true" then Except.ok (Value.bool true)
                   else if s = "false" then Except.ok (Value.bool false)
                   else Except.error RttcErr.invalid) = Except.ok w := h
               split at h <;> (try split at h) <;>
                 first
                   | exact Except.noConfusion h
                   | (injection h with h; subst h; rfl))
      · rw [if_neg h3] at h ⊢
        by_cases h4 : t = "json"
        · rw [if_pos h4] at h ⊢
          split at h
          · injection h with h
            subst h
            simp_all
          · exact Except.noConfusion h
        · rw [if_neg h4] at h ⊢
          by_cases h5 : t = "ref"
          · rw [if_pos h5] at h ⊢
          · rw [if_neg h5] at h
            exact Except.noConfusion h

/-- Loose rttc coercion returns `null` only for the `json` and `ref`
type tags. -/
theorem rttcValidate_ok_null (t : String) (v : Value)
    (h : rttcValidate t v = .ok .null) : t = "json" ∨ t = "ref" := by
  unfold rttcValidate at h
  by_cases h1 : t = "string"
  · rw [if_pos h1] at h
    cases v <;>
      first
        | exact Except.noConfusion h
        | (injection h with h; exact Value.noConfusion h)
  · rw [if_neg h1] at h
    by_cases h2 : t = "number"
    · rw [if_pos h2] at h
      cases v <;>
        first
          | exact Except.noConfusion h
          | (injection h with h; exact Value.noConfusion h)
          | (rename_i s
             replace h : (match parseNum s with
                 | some q => Except.ok (Value.num q)
                 | none => Except.error RttcErr.invalid) = Except.ok Value.null := h
             cases hp : parseNum s <;> rw [hp] at h <;>
               first
                 | exact Except.noConfusion h
                 | (injection h with h; exact Value.noConfusion h))
    · rw [if_neg h2] at h
      by_cases h3 : t = "boolean"
      · rw [if_pos h3] at h
        cases v <;>
          first
            | exact Except.noConfusion h
            | (injection h with h; exact Value.noConfusion h)
            | (rename_i s
               replace h : (if s = "true" then Except.ok (Value.bool true)
                   else if s = "false" then Except.ok (Value.bool false)
                   else Except.error RttcErr.invalid) = Except.ok Value.null := h
               split at h <;> (try split at h) <;>
                 first
                   | exact Except.noConfusion h
                   | (injection h with h; exact Value.noConfusion h))
      · rw [if_neg h3] at h
        by_cases h4 : t = "json"
        · exact Or.inl h4
        · rw [if_neg h4] at h
          by_cases h5 : t = "ref"
          · exact Or.inr h5
          · rw [if_neg h5] at h
            exact Except.noConfusion h

/-- Loose rttc coercion of `null` (when it succeeds) returns `null`. -/
theorem rttcValidate_null_ok (t : String) (w : Value)
    (h : rttcValidate t .null = .ok w) : w = .null := by
  unfold rttcValidate at h
  by_cases h1 : t = "string"
  · rw [if_pos h1] at h
    exact Except.noConfusion h
  · rw [if_neg h1] at h
    by_cases h2 : t = "number"
    · rw [if_pos h2] at h
      exact Except.noConfusion h
    · rw [if_neg h2] at h
      by_cases h3 : t = "boolean"
      · rw [if_pos h3] at h
        exact Except.noConfusion h
      · rw [if_neg h3] at h
        by_cases h4 : t = "json"
        · rw [if_pos h4] at h
          simp only [jsonOk, if_true] at h
          injection h with h
          exact h.symm
        · rw [if_neg h4] at h
          by_cases h5 : t = "ref"
          · rw [if_pos h5] at h
            injection h with h
            exact h.symm
          · rw [if_neg h5] at h
            exact Except.noConfusion h

/-- Loose rttc coercion maps an empty-string output back to an
empty-string input. -/
theorem rttcValidate_ok_notEmpty (t : String) (v w : Value)
    (h : rttcValidate t v = .ok w) (hw : isEmptyStr w = true) :
    isEmptyStr v = true := by
  unfold rttcValidate at h
  by_cases h1 : t = "string"
  · rw [if_pos h1] at h
    cases v <;>
      first
        | exact Except.noConfusion h
        | (injection h with h; subst h; exact hw)
        | (rename_i q
           injection h with h
           subst h
           rw [isEmptyStr_numToString q] at hw
           exact Bool.noConfusion hw)
        | (rename_i b
           injection h with h
           subst h
           cases b <;> exact Bool.noConfusion hw)
  · rw [if_neg h1] at h
    by_cases h2 : t = "number"
    · rw [if_pos h2] at h
      cases v <;>
        first
          | exact Except.noConfusion h
          | (injection h with h; subst h; exact Bool.noConfusion hw)
          | (rename_i s
             replace h : (match parseNum s with
                 | some q => Except.ok (Value.num q)
                 | none => Except.error RttcErr.invalid) = Except.ok w := h
             cases hp : parseNum s <;> rw [hp] at h <;>
               first
                 | exact Except.noConfusion h
                 | (injection h with h; subst h; exact Bool.noConfusion hw))
    · rw [if_neg h2] at h
      by_cases h3 : t = "boolean"
      · rw [if_pos h3] at h
        cases v <;>
          first
            | exact Except.noConfusion h
            | (injection h with h; subst h; exact Bool.noConfusion hw)
            | (rename_i s
               replace h : (if s = "true" then Except.ok (Value.bool true)
                   else if s = "false" then Except.ok (Value.bool false)
                   else Except.error RttcErr.invalid) = Except.ok w := h
               split at h <;> (try split at h) <;>
                 first
                   | exact Except.noConfusion h
                   | (injection h with h; subst h; exact Bool.noConfusion hw))
      · rw [if_neg h3] at h
        by_cases h4 : t = "json"
        · rw [if_pos h4] at h
          split at h
          · injection h with h
            subst h
            exact hw
          · exact Except.noConfusion h
        · rw [if_neg h4] at h
          by_cases h5 : t = "ref"
          · rw [if_pos h5] at h
            injection h with h
            subst h
            exact hw
          · rw [if_neg h5] at h
            exact Except.noConfusion h

/-- Loose rttc coercion never produces `undefined` from a defined
value. -/
theorem rttcValidate_ok_notUndef (t : String) (v w : Value)
    (h : rttcValidate t v = .ok w) (hv : isUndefV v = false) :
    isUndefV w = false := by
  unfold rttcValidate at h
  by_cases h1 : t = "string"
  · rw [if_pos h1] at h
    cases v <;>
      first
        | exact Except.noConfusion h
        | (injection h with h; subst h; rfl)
  · rw [if_neg h1] at h
    by_cases h2 : t = "number"
    · rw [if_pos h2] at h
      cases v <;>
        first
          | exact Except.noConfusion h
          | (injection h with h; subst h; rfl)
          | (rename_i s
             replace h : (match parseNum s with
                 | some q => Except.ok (Value.num q)
                 | none => Except.error RttcErr.invalid) = Except.ok w := h
             cases hp : parseNum s <;> rw [hp] at h <;>
               first
                 | exact Except.noConfusion h
                 | (injection h with h; subst h; rfl))
    · rw [if_neg h2] at h
      by_cases h3 : t = "boolean"
      · rw [if_pos h3] at h
        cases v <;>
          first
            | exact Except.noConfusion h
            | (injection h with h; subst h; rfl)
            | (rename_i s
               replace h : (if s = "true" then Except.ok (Value.bool true)
                   else if s = "false" then Except.ok (Value.bool false)
                   else Except.error RttcErr.invalid) = Except.ok w := h
               split at h <;> (try split at h) <;>
                 first
                   | exact Except.noConfusion h
                   | (injection h with h; subst h; rfl))
      · rw [if_neg h3] at h
        by_cases h4 : t = "json"
        · rw [if_pos h4] at h
          split at h
          · injection h with h
            subst h
            exact hv
          · exact Except.noConfusion h
        · rw [if_neg h4] at h
          by_cases h5 : t = "ref"
          · rw [if_pos h5] at h
            injection h with h
            subst h
            exact hv
          · rw [if_neg h5] at h
            exact Except.noConfusion h

/-- C7: for a singular association attribute and a non-null (supplied)
filter value, the filter normalizer validates the value against the
target model's primary-key type with the loose general-purpose rttc
coercion — succeeding with its result, and raising
`E_VALUE_NOT_USABLE` exactly when that loose validation fails with a
type mismatch. -/
theorem filterSingular_looseCoercion (orm : Orm) (mid attrName : String)
    (M TM : WLModel) (ad pkAttr : AttrDef) (target pt : String) (v : Value)
    (hM : getModel mid orm = some M)
    (hA : lookupAttr M attrName = some ad)
    (hcol : truthyStr ad.collection = false)
    (hmod : ad.model = some target) (htg : target ≠ "")
    (hTM : getModel target orm = some TM)
    (hpkA : lookupAttr TM TM.primaryKey = some pkAttr)
    (hpt : pkAttr.type = some pt)
    (hvu : isUndefV v = false)
    (hvn : isNullV v = false) :
    (∀ w, rttcValidate pt v = .ok w →
      normalizeVsAttribute v attrName mid orm = .ok w) ∧
    (normalizeVsAttribute v attrName mid orm = .error .valueNotUsable
      ↔ rttcValidate pt v = .error .invalid) := by
  have htt : truthyStr (some target) = true := by
    simp only [truthyStr, Bool.not_eq_true', beq_eq_false_iff_ne, ne_eq]
    exact htg
  have hred : normalizeVsAttribute v attrName mid orm
      = (match rttcValidate pt v with
         | .ok w => .ok w
         | .error .invalid => .error .valueNotUsable
         | .error .notAType => .error .consistency) := by
    unfold normalizeVsAttribute
    rw [hvu, hM]
    simp only [hA, hcol, Bool.false_eq_true, if_false, hvn, hmod, htt, if_true,
      Option.getD_some]
    rw [hTM]
    simp only [hpkA, hpt]
  constructor
  · intro w hw
    rw [hred, hw]
  · rw [hred]
    cases hr : rttcValidate pt v with
    | ok w => simp
    | error e => cases e <;> simp

/-- Instance of C7 at the demo singular association with a fractional
number — usable as a filter though it could never be written as a
primary key — discharging each hypothesis. -/
theorem filterSingular_looseCoercion_witness :
    normalizeVsAttribute (.num (33/10)) "bestFriend" "user" demoOrm
      = .ok (.num (33/10)) :=
  (filterSingular_looseCoercion demoOrm "user" "bestFriend" userModel userModel
      { model := some "user" } { type := some "number" } "user" "number"
      (.num (33/10)) rfl rfl rfl rfl (by decide) rfl rfl rfl rfl rfl).1
    (.num (33/10)) rfl

/-- A value reported null by `isNullV` is `null`. -/
theorem isNullV_eq (w : Value) (h : isNullV w = true) : w = .null := by
  cases w <;> first | rfl | exact Bool.noConfusion h

/-- A successful run of the plain-scalar branch returns exactly the
loose rttc coercion of its input. -/
theorem normalizeScalarValue_ok_rttc (v w : Value) (a : String) (ad : AttrDef)
    (t : String) (h : normalizeScalarValue v a ad t = .ok w) :
    rttcValidate t v = .ok w := by
  unfold normalizeScalarValue at h
  split at h
  · exact Except.noConfusion h
  · split at h
    · split at h <;> exact Except.noConfusion h
    · cases hr : rttcValidate t v with
      | error e =>
          rw [hr] at h
          cases e <;> simp at h
      | ok u =>
          rw [hr] at h
          replace h : (match ad.validations with
              | none => Except.ok u
              | some ruleset =>
                  if isNullV u then Except.ok u
                  else
                    match anchor u ruleset with
                    | [] => Except.ok u
                    | x :: tl => Except.error (WriteErr.violatesRules (x :: tl)))
              = Except.ok w := h
          cases hval : ad.validations with
          | none =>
              rw [hval] at h
              injection h with h
              rw [h]
          | some rs =>
              rw [hval] at h
              replace h : (if isNullV u then Except.ok u
                  else
                    match anchor u rs with
                    | [] => Except.ok u
                    | x :: tl => Except.error (WriteErr.violatesRules (x :: tl)))
                  = Except.ok w := h
              split at h
              · injection h with h
                rw [h]
              · cases ha : anchor u rs <;> rw [ha] at h
                · injection h with h
                  rw [h]
                · exact Except.noConfusion h

/-- A successful run of the plain-scalar branch leaves every declared
rule satisfied (when the coerced value is not `null`). -/
theorem normalizeScalarValue_ok_rules (v w : Value) (a : String) (ad : AttrDef)
    (t : String) (rs : List Rule)
    (h : normalizeScalarValue v a ad t = .ok w)
    (hval : ad.validations = some rs)
    (hwn : isNullV w = false) : anchor w rs = [] := by
  unfold normalizeScalarValue at h
  split at h
  · exact Except.noConfusion h
  · split at h
    · split at h <;> exact Except.noConfusion h
    · cases hr : rttcValidate t v with
      | error e =>
          rw [hr] at h
          cases e <;> simp at h
      | ok u =>
          rw [hr] at h
          replace h : (match ad.validations with
              | none => Except.ok u
              | some ruleset =>
                  if isNullV u then Except.ok u
                  else
                    match anchor u ruleset with
                    | [] => Except.ok u
                    | x :: tl => Except.error (WriteErr.violatesRules (x :: tl)))
              = Except.ok w := h
          rw [hval] at h
          replace h : (if isNullV u then Except.ok u
              else
                match anchor u rs with
                | [] => Except.ok u
                | x :: tl => Except.error (WriteErr.violatesRules (x :: tl)))
              = Except.ok w := h
          split at h
          · rename_i hun
            injection h with h
            subst h
            rw [hun] at hwn
            exact Bool.noConfusion hwn
          · cases ha : anchor u rs <;> rw [ha] at h
            · injection h with h
              subst h
              exact ha
            · exact Except.noConfusion h

/-- The plain-scalar branch is idempotent: re-normalizing a value it
has already returned succeeds with the same value. -/
theorem normalizeScalarValue_idem (v w : Value) (a : String) (ad : AttrDef)
    (t : String) (h : normalizeScalarValue v a ad t = .ok w) :
    normalizeScalarValue w a ad t = .ok w := by
  have hr : rttcValidate t v = .ok w := normalizeScalarValue_ok_rttc v w a ad t h
  have hidem : rttcValidate t w = .ok w := rttcValidate_idem t v w hr
  unfold normalizeScalarValue at h ⊢
  split at h
  · exact Except.noConfusion h
  · rename_i hguard
    split at h
    · split at h <;> exact Except.noConfusion h
    · rename_i hsteer
      have hgw : ¬((isEmptyStr w && (ad.autoCreatedAt || ad.autoUpdatedAt)) = true) := by
        intro hx
        rcases Bool.and_eq_true_iff.mp hx with ⟨hw1, hw2⟩
        exact hguard (Bool.and_eq_true_iff.mpr ⟨rttcValidate_ok_notEmpty t v w hr hw1, hw2⟩)
      have hsw : ¬((isNullV w && !(t == "json") && !(t == "ref") && !ad.required) = true) := by
        intro hx
        rcases Bool.and_eq_true_iff.mp hx with ⟨hx1, -⟩
        rcases Bool.and_eq_true_iff.mp hx1 with ⟨hx2, hj2⟩
        rcases Bool.and_eq_true_iff.mp hx2 with ⟨hx3, hj1⟩
        have hw0 : w = .null := isNullV_eq w hx3
        rw [hw0] at hr
        rcases rttcValidate_ok_null t v hr with hj | hj <;> subst hj <;> simp_all
      rw [if_neg hgw, if_neg hsw, hidem]
      rw [hr] at h
      replace h : (match ad.validations with
          | none => Except.ok w
          | some ruleset =>
              if isNullV w then Except.ok w
              else
                match anchor w ruleset with
                | [] => Except.ok w
                | x :: tl => Except.error (WriteErr.violatesRules (x :: tl)))
          = Except.ok w := h
      exact h

/-- Evaluation of the plain-scalar branch once the guards pass, the
coercion succeeds with a non-null value, and a ruleset is declared:
the result is decided by the violation list. -/
theorem normalizeScalarValue_rules_eval (v w : Value) (a : String) (ad : AttrDef)
    (t : String) (rs : List Rule)
    (hguard : (isEmptyStr v && (ad.autoCreatedAt || ad.autoUpdatedAt)) = false)
    (hsteer : (isNullV v && !(t == "json") && !(t == "ref") && !ad.required) = false)
    (hr : rttcValidate t v = .ok w)
    (hval : ad.validations = some rs)
    (hwn : isNullV w = false) :
    normalizeScalarValue v a ad t
      = (match anchor w rs with
         | [] => Except.ok w
         | x :: tl => Except.error (WriteErr.violatesRules (x :: tl))) := by
  unfold normalizeScalarValue
  rw [hguard, hsteer]
  simp only [Bool.false_eq_true, if_false, hr, hval, hwn]

/-- C9: for a plain scalar attribute, the write normalizer is
idempotent — re-applying it to a value it has already successfully
normalized succeeds and returns the same value. -/
theorem writeScalar_idempotent (orm : Orm) (mid attrName : String) (M : WLModel)
    (ad : AttrDef) (t : String) (b : Bool) (allow : Bool) (v w : Value)
    (hM : getModel mid orm = some M)
    (hs : M.hasSchema = some b)
    (hvn : isValidAttributeName attrName = true)
    (hA : lookupAttr M attrName = some ad)
    (hpk : M.primaryKey ≠ attrName)
    (hcol : truthyStr ad.collection = false)
    (hmod : truthyStr ad.model = false)
    (ht : ad.type = some t) (hte : t ≠ "")
    (h : normalizeValueToSet v attrName mid orm allow = .ok w) :
    normalizeValueToSet w attrName mid orm allow = .ok w := by
  rw [nvts_gate_reduce orm mid attrName M ad b v allow hM hs hvn hA] at h
  have hvu : isUndefV v = false := by
    cases hu : isUndefV v
    · rfl
    · exfalso
      unfold nvtsDispatch at h
      rw [hu] at h
      simp at h
  rw [nvtsDispatch_scalar_reduce v attrName M orm allow ad t hA hpk hcol hmod ht
    hte hvu] at h
  have hr : rttcValidate t v = .ok w := normalizeScalarValue_ok_rttc v w attrName ad t h
  have hwu : isUndefV w = false := rttcValidate_ok_notUndef t v w hr hvu
  rw [nvts_gate_reduce orm mid attrName M ad b w allow hM hs hvn hA,
    nvtsDispatch_scalar_reduce w attrName M orm allow ad t hA hpk hcol hmod ht
      hte hwu]
  exact normalizeScalarValue_idem v w attrName ad t h

/-- Instance of C9: the demo optional string attribute maps the number
5 to the string "5", and re-normalizing that string returns it
unchanged; the proof applies the idempotence theorem to the first
run. -/
theorem writeScalar_idempotent_witness :
    normalizeValueToSet (.str "5") "nickname" "user" demoOrm false
      = .ok (.str "5") :=
  writeScalar_idempotent demoOrm "user" "nickname" userModel
    { type := some "string" } "string" true false (.num 5) (.str "5") rfl rfl
    (by decide) rfl (by decide) rfl rfl rfl (by decide) rfl

/-- C8: for a plain scalar attribute with a declared ruleset, the
ruleset is evaluated only when the (type-valid) value is not null —
`null` under a `json` or `ref` type succeeds with no rule check at
all — and any violations fail `E_VIOLATES_RULES` carrying the complete
violation list produced by the rule validator. -/
theorem ruleAggregation (orm : Orm) (mid attrName : String) (M : WLModel)
    (ad : AttrDef) (t : String) (b : Bool) (allow : Bool) (rs : List Rule)
    (hM : getModel mid orm = some M)
    (hs : M.hasSchema = some b)
    (hvn : isValidAttributeName attrName = true)
    (hA : lookupAttr M attrName = some ad)
    (hpk : M.primaryKey ≠ attrName)
    (hcol : truthyStr ad.collection = false)
    (hmod : truthyStr ad.model = false)
    (ht : ad.type = some t) (hte : t ≠ "")
    (hrs : ad.validations = some rs) :
    ((t = "json" ∨ t = "ref") →
      normalizeValueToSet .null attrName mid orm allow = .ok .null) ∧
    (∀ v w : Value, isUndefV v = false →
      (isEmptyStr v && (ad.autoCreatedAt || ad.autoUpdatedAt)) = false →
      rttcValidate t v = .ok w → isNullV w = false →
      (anchor w rs = [] →
        normalizeValueToSet v attrName mid orm allow = .ok w) ∧
      (anchor w rs ≠ [] →
        normalizeValueToSet v attrName mid orm allow
          = .error (.violatesRules (anchor w rs)))) := by
  constructor
  · intro hjr
    rw [nvts_gate_reduce orm mid attrName M ad b .null allow hM hs hvn hA,
      nvtsDispatch_scalar_reduce .null attrName M orm allow ad t hA hpk hcol hmod
        ht hte rfl]
    unfold normalizeScalarValue
    rcases hjr with rfl | rfl <;> · rw [hrs]; rfl
  · intro v w hvu hguard hr hwn
    rw [nvts_gate_reduce orm mid attrName M ad b v allow hM hs hvn hA,
      nvtsDispatch_scalar_reduce v attrName M orm allow ad t hA hpk hcol hmod ht
        hte hvu]
    have hsteer : (isNullV v && !(t == "json") && !(t == "ref") && !ad.required) = false := by
      cases hnv : isNullV v
      · rfl
      · exfalso
        have hv0 : v = .null := isNullV_eq v hnv
        subst hv0
        have hw0 : w = .null := rttcValidate_null_ok t w hr
        rw [hw0] at hwn
        exact Bool.noConfusion hwn
    rw [normalizeScalarValue_rules_eval v w attrName ad t rs hguard hsteer hr hrs hwn]
    constructor
    · intro ha
      rw [ha]
    · intro ha
      cases hl : anchor w rs with
      | nil => exact absurd hl ha
      | cons x tl => rfl

/-- Instance of C8 at the demo ruleset with two independently violated
constraints: the error carries exactly those two violations. -/
theorem ruleAggregation_witness :
    normalizeValueToSet (.str "hi") "bio" "user" demoOrm false
      = .error (.violatesRules
          [("minLength", "Too few characters."), ("isNumber", "Must be a number.")]) :=
  ((ruleAggregation demoOrm "user" "bio" userModel
      { type := some "string", validations := some bioRuleset } "string" true
      false bioRuleset rfl rfl (by decide) rfl (by decide) rfl rfl rfl
      (by decide) rfl).2 (.str "hi") (.str "hi") rfl rfl rfl rfl).2 (by decide)

/-- The plural-association branch never fails with a rule-violation
error. -/
theorem normalizeCollectionValue_no_rules (v : Value) (target : String)
    (orm : Orm) (allow : Bool) (rv : List (String × String)) :
    normalizeCollectionValue v target orm allow
      ≠ .error (.violatesRules rv) := by
  intro h
  unfold normalizeCollectionValue at h
  split at h
  · simp at h
  · split at h
    · simp at h
    · split at h
      · simp at h
      · split at h <;> simp at h

/-- The singular-association branch never fails with a rule-violation
error. -/
theorem normalizeSingularValue_no_rules (v : Value) (ad : AttrDef)
    (target : String) (orm : Orm) (rv : List (String × String)) :
    normalizeSingularValue v ad target orm ≠ .error (.violatesRules rv) := by
  intro h
  unfold normalizeSingularValue at h
  split at h
  · split at h <;> simp at h
  · split at h
    · simp at h
    · split at h
      · simp at h
      · split at h <;> simp at h

/-- A rule-violation error from the plain-scalar branch presupposes a
declared ruleset. -/
theorem normalizeScalarValue_rules_source (v : Value) (a : String) (ad : AttrDef)
    (t : String) (rv : List (String × String))
    (h : normalizeScalarValue v a ad t = .error (.violatesRules rv)) :
    ad.validations ≠ none := by
  cases hval : ad.validations with
  | some rs => simp
  | none =>
      exfalso
      unfold normalizeScalarValue at h
      rw [hval] at h
      split at h
      · simp at h
      · split at h
        · split at h <;> simp at h
        · cases hr : rttcValidate t v with
          | error e =>
              rw [hr] at h
              cases e <;> simp at h
          | ok u =>
              rw [hr] at h
              simp at h

/-- A rule-violation error from the shape dispatch pins down the
plain-scalar branch: the attribute exists, is not the primary key,
is neither kind of association, declares a type, and declares a
ruleset. -/
theorem nvtsDispatch_rules_source (v : Value) (a : String) (M : WLModel)
    (orm : Orm) (allow : Bool) (rv : List (String × String))
    (h : nvtsDispatch v a M orm allow = .error (.violatesRules rv)) :
    ∃ ad t, lookupAttr M a = some ad ∧ M.primaryKey ≠ a ∧
      truthyStr ad.collection = false ∧ truthyStr ad.model = false ∧
      ad.type = some t ∧ ad.validations ≠ none := by
  unfold nvtsDispatch at h
  split at h
  · simp at h
  · split at h
    · split at h <;> simp at h
    · rename_i ad hA
      split at h
      · split at h <;> simp at h
      · rename_i hpk
        split at h
        · exact absurd h (normalizeCollectionValue_no_rules _ _ _ _ _)
        · rename_i hcol
          split at h
          · exact absurd h (normalizeSingularValue_no_rules _ _ _ _ _)
          · rename_i hmod
            split at h
            · simp at h
            · rename_i t htt
              split at h
              · simp at h
              · rename_i hte
                exact ⟨ad, t, hA, hpk, Bool.of_not_eq_true hcol,
                  Bool.of_not_eq_true hmod, htt,
                  normalizeScalarValue_rules_source v a ad t rv h⟩

/-- C10: a `E_VIOLATES_RULES` failure of the write normalizer can only
arise from the plain-scalar branch — never from the primary key,
singular or plural associations, or undeclared attributes. -/
theorem violatesRules_only_scalar (v : Value) (a mid : String) (orm : Orm)
    (allow : Bool) (rv : List (String × String))
    (h : normalizeValueToSet v a mid orm allow = .error (.violatesRules rv)) :
    ∃ M ad t, getModel mid orm = some M ∧ lookupAttr M a = some ad ∧
      M.primaryKey ≠ a ∧ truthyStr ad.collection = false ∧
      truthyStr ad.model = false ∧ ad.type = some t ∧
      ad.validations ≠ none := by
  unfold normalizeValueToSet at h
  split at h
  · simp at h
  · cases hM : getModel mid orm with
    | none => rw [hM] at h; simp at h
    | some M =>
        rw [hM] at h
        replace h : (match M.hasSchema with
            | some true =>
                if (lookupAttr M a).isNone then Except.error WriteErr.shouldBeIgnored
                else nvtsDispatch v a M orm allow
            | some false =>
                if isValidAttributeName a then nvtsDispatch v a M orm allow
                else Except.error WriteErr.highlyIrregular
            | none => Except.error WriteErr.consistency)
            = Except.error (WriteErr.violatesRules rv) := h
        split at h
        · split at h
          · simp at h
          · rcases nvtsDispatch_rules_source v a M orm allow rv h with
              ⟨ad, t, h1, h2, h3, h4, h5, h6⟩
            exact ⟨M, ad, t, rfl, h1, h2, h3, h4, h5, h6⟩
        · split at h
          · rcases nvtsDispatch_rules_source v a M orm allow rv h with
              ⟨ad, t, h1, h2, h3, h4, h5, h6⟩
            exact ⟨M, ad, t, rfl, h1, h2, h3, h4, h5, h6⟩
          · simp at h
        · simp at h

/-- Instance of C10 at the concrete rule-violating demo input,
discharging the hypothesis by evaluation. -/
theorem violatesRules_only_scalar_witness :
    ∃ M ad t, getModel "user" demoOrm = some M ∧
      lookupAttr M "bio" = some ad ∧ M.primaryKey ≠ "bio" ∧
      truthyStr ad.collection = false ∧ truthyStr ad.model = false ∧
      ad.type = some t ∧ ad.validations ≠ none :=
  violatesRules_only_scalar (.str "hi") "bio" "user" demoOrm false
    [("minLength", "Too few characters."), ("isNumber", "Must be a number.")] rfl

end Waterline
